import Mathlib

/-!
Verification of the eval-ease evaluation pipeline: prompt building,
Gemini-response normalization, session result creation/editing, and the
three export projections (detailed CSV rows, pivot rows, JSON).

Python dicts are modelled as insertion-ordered association lists; dict
assignment `d[k] = v` is `dinsert` (update in place if the key exists,
append otherwise).  Scores are modelled as rationals (`Rat`).
-/

namespace EvalEase

/-- `Student` dataclass from `src/data_models.py` (pdf_bytes omitted:
it is an opaque payload that only flows to the external API call). -/
structure Student where
  name : String
  roll_number : String
  pdf_filename : String
deriving DecidableEq, Repr

/-- `QuestionRubric` dataclass from `src/data_models.py`. -/
structure QuestionRubric where
  question : String
  standard_answer : String
deriving DecidableEq, Repr

/-- `RubricCriteria` dataclass from `src/data_models.py`. -/
structure RubricCriteria where
  title : String
  explanation : String
deriving DecidableEq, Repr

/-- A Python dict with string keys, as an insertion-ordered association list. -/
abbrev Dict (β : Type) := List (String × β)

/-- The `questions_dict` mapping question ids to `QuestionRubric`. -/
abbrev QuestionMap := Dict QuestionRubric

/-- Python `d[k] = v`: overwrite in place when `k` is already a key,
append `(k, v)` otherwise. -/
def dinsert {β : Type} (d : Dict β) (k : String) (v : β) : Dict β :=
  if d.any (fun p => p.1 = k) then
    d.map (fun p => if p.1 = k then (k, v) else p)
  else
    d ++ [(k, v)]

/-- Key list of a dict, in insertion order. -/
def dkeys {β : Type} (d : Dict β) : List String := d.map Prod.fst

/-- `build_prompt` from `src/llm_utils.py`: the loop accumulating into
`prompt` is a fold over the enumerated criteria / the question items. -/
def build_prompt (criteria_list : List RubricCriteria) (questions_dict : QuestionMap) : String :=
  let prompt := "You are an AI evaluator. Use the following rubric criteria and questions to evaluate the student's PDF response.\n\n"
  let prompt := prompt ++ "RUBRIC CRITERIA:\n"
  let prompt := criteria_list.enum.foldl
    (fun acc ic =>
      acc ++ ("R" ++ toString (ic.1 + 1) ++ ". " ++ ic.2.title ++ ": " ++ ic.2.explanation ++ "\n"))
    prompt
  let prompt := prompt ++ "\nQUESTIONS AND STANDARD ANSWERS:\n"
  let prompt := questions_dict.foldl
    (fun acc q =>
      acc ++ (q.1 ++ ": " ++ q.2.question ++ "\nStandard Answer: " ++ q.2.standard_answer ++ "\n\n"))
    prompt
  let prompt := prompt ++ "\nINSTRUCTIONS:\n"
  let prompt := prompt ++ "1. Evaluate the student's response against each question and the rubric criteria.\n"
  let prompt := prompt ++ "2. For each question, provide a score (0-10) and detailed feedback.\n"
  let prompt := prompt ++ "3. Provide an overall assessment of the student's work.\n"
  prompt

/-- `pat` starts the character list `s`. -/
def startsList (pat s : List Char) : Bool :=
  match pat, s with
  | [], _ => true
  | _ :: _, [] => false
  | a :: as, b :: bs => a = b && startsList as bs

/-- `pat` occurs somewhere inside the character list `s`. -/
def hasSubList (pat : List Char) : List Char → Bool
  | [] => startsList pat []
  | c :: rest => startsList pat (c :: rest) || hasSubList pat rest

/-- `pat` occurs as a substring of `s`. -/
def containsSub (s pat : String) : Bool :=
  hasSubList pat.data s.data

example : containsSub "abcdef" "cde" = true := by decide
example : containsSub "abcdef" "xyz" = false := by decide

set_option maxRecDepth 4000 in
example :
    build_prompt [⟨"Clarity", "Is it clear"⟩] [("Q1", ⟨"What?", "That."⟩)] =
    "You are an AI evaluator. Use the following rubric criteria and questions to evaluate the student's PDF response.\n\nRUBRIC CRITERIA:\nR1. Clarity: Is it clear\n\nQUESTIONS AND STANDARD ANSWERS:\nQ1: What?\nStandard Answer: That.\n\n\nINSTRUCTIONS:\n1. Evaluate the student's response against each question and the rubric criteria.\n2. For each question, provide a score (0-10) and detailed feedback.\n3. Provide an overall assessment of the student's work.\n" := by
  rfl

/-- One entry of the `results` list returned by `evaluate_with_gemini`
(`question` is backfilled from the questions map in both success paths). -/
structure ResultEntry where
  question_id : String
  question : String
  score : Rat
  feedback : String
deriving DecidableEq, Repr

/-- The dictionary returned by `evaluate_with_gemini`: `error` is present
exactly on the failure path. -/
structure Outcome where
  error : Option String
  results : List ResultEntry
  overall_feedback : String
deriving DecidableEq, Repr

/-- A parsed JSON evaluation item as a Python dict: each field may be
missing (read with `.get` and a default). -/
structure RawEval where
  question_id : Option String
  score : Option Rat
  feedback : Option String
deriving DecidableEq, Repr

/-- A parsed JSON response object as a Python dict: both top-level keys
may be missing. -/
structure RawRoot where
  question_evaluations : Option (List RawEval)
  overall_feedback : Option String
deriving DecidableEq, Repr

/-- `PydanticQuestionEvaluation` from `src/llm_utils.py`: all fields
present (enforced by the pydantic schema). -/
structure PyQuestionEvaluation where
  question_id : String
  score : Rat
  feedback : String
deriving DecidableEq, Repr

/-- `PydanticEvaluationResponse` from `src/llm_utils.py`. -/
structure PyEvaluationResponse where
  question_evaluations : List PyQuestionEvaluation
  overall_feedback : String
deriving DecidableEq, Repr

/-- Behaviour of the external `model.generate_content` call plus, where
relevant, the library-side parsing of its payload:
* `exn msg` — the call (or any code inside the `try`) raised an exception;
* `parsedDict d` — `response.parsed` exists and is a Python dict;
* `parsedObj o` — `response.parsed` exists and is the pydantic object;
* `rawText none` — no `parsed` attribute and `json.loads(response.text)`
  raised (malformed JSON, folded into `exn`-like handling by the `try`);
* `rawText (some r)` — no `parsed` attribute, `response.text` parsed to `r`. -/
inductive GenResult where
  | exn (msg : String)
  | parsedDict (d : RawRoot)
  | parsedObj (o : PyEvaluationResponse)
  | rawText (r : Option RawRoot)
deriving DecidableEq, Repr

/-- Python truthiness test `not GEMINI_API_KEY`: the key is absent or the
empty string. -/
def keyFalsy : Option String → Bool
  | none => true
  | some s => s.isEmpty

/-- Question lookup `questions_dict[q_id]` / `q_id in questions_dict`
(first match; Python dicts have unique keys). -/
def dget {β : Type} (d : Dict β) (k : String) : Option β :=
  d.lookup k

/-- The backfill step of the structured path: `result["question"] =`
the rubric question when `q_id in questions_dict`, else the literal
`"Unknown question"`. -/
def backfillQuestion (questions_dict : QuestionMap) (question_id : String) : String :=
  match dget questions_dict question_id with
  | some q => q.question
  | none => "Unknown question"

/-- Structured path, dict case (`isinstance(parsed_data, dict)`):
read `question_evaluations` / `overall_feedback` with defaults, build
`QuestionEvaluation`s with per-field defaults, convert via `to_dict`,
then backfill `question`. -/
def normalizeDict (d : RawRoot) (questions_dict : QuestionMap) : Outcome :=
  let evals := d.question_evaluations.getD []
  let overall_feedback := d.overall_feedback.getD ""
  let results := evals.map (fun e =>
    let qid := e.question_id.getD ""
    { question_id := qid
      question := backfillQuestion questions_dict qid
      score := e.score.getD 0
      feedback := e.feedback.getD "" })
  { error := none, results := results, overall_feedback := overall_feedback }

/-- Structured path, pydantic-object case: fields are all present;
convert via `to_dict` and backfill `question`. -/
def normalizeObj (o : PyEvaluationResponse) (questions_dict : QuestionMap) : Outcome :=
  let results := o.question_evaluations.map (fun e =>
    { question_id := e.question_id
      question := backfillQuestion questions_dict e.question_id
      score := e.score
      feedback := e.feedback })
  { error := none, results := results, overall_feedback := o.overall_feedback }

/-- Raw-JSON fallback path: keep exactly the entries with
`q_id and q_id in questions_dict` (truthy, i.e. non-empty, and present),
with per-field defaults. -/
def normalizeRaw (r : RawRoot) (questions_dict : QuestionMap) : Outcome :=
  let evals := r.question_evaluations.getD []
  let results := evals.filterMap (fun e =>
    let qid := e.question_id.getD ""
    if qid.isEmpty then none
    else
      match dget questions_dict qid with
      | some q =>
          some { question_id := qid
                 question := q.question
                 score := e.score.getD 0
                 feedback := e.feedback.getD "" }
      | none => none)
  { error := none, results := results, overall_feedback := r.overall_feedback.getD "" }

/-- The error dictionary built in the `except` clause. -/
def errorOutcome (msg : String) : Outcome :=
  { error := some ("Failed to process with Gemini: " ++ msg)
    results := []
    overall_feedback := "Error occurred during evaluation." }

/-- `evaluate_with_gemini` from `src/llm_utils.py`.  `apiKey` is the
`GEMINI_API_KEY` environment value; `call` abstracts the single external
API call.  A falsy key raises `ValueError` (modelled as `Except.error`)
before the `try`; every failure inside the `try` is converted to the
error dictionary.  `pdf_bytes` only flows into the external call. -/
def evaluate_with_gemini (apiKey : Option String) (pdf_bytes : List UInt8)
    (questions_dict : QuestionMap) (criteria_list : List RubricCriteria)
    (call : GenResult) : Except String Outcome :=
  if keyFalsy apiKey then
    .error "GEMINI_API_KEY not set in environment."
  else
    let _prompt := build_prompt criteria_list questions_dict
    let _pdf := pdf_bytes
    match call with
    | .exn msg => .ok (errorOutcome msg)
    | .parsedDict d => .ok (normalizeDict d questions_dict)
    | .parsedObj o => .ok (normalizeObj o questions_dict)
    | .rawText none =>
        .ok (errorOutcome "Expecting value: line 1 column 1 (char 0)")
    | .rawText (some r) => .ok (normalizeRaw r questions_dict)

example :
    evaluate_with_gemini (some "k") [] [("Q1", ⟨"q", "a"⟩)] []
      (.parsedDict ⟨some [⟨none, none, none⟩], none⟩) =
    .ok { error := none,
          results := [⟨"", "Unknown question", 0, ""⟩],
          overall_feedback := "" } := by
  rfl

example :
    evaluate_with_gemini (some "k") [] [("Q1", ⟨"q", "a"⟩)] []
      (.rawText (some ⟨some [⟨none, none, none⟩, ⟨some "Q1", some 7, none⟩], none⟩)) =
    .ok { error := none,
          results := [⟨"Q1", "q", 7, ""⟩],
          overall_feedback := "" } := by
  rfl

/-! ### Lexicographic string order (Python `sorted` on str) -/

/-- Boolean lexicographic `≤` on character lists, by code point
(the order Python's `sorted` uses on strings). -/
def lexLe : List Char → List Char → Bool
  | [], _ => true
  | _ :: _, [] => false
  | a :: as, b :: bs =>
    if a.val.toNat < b.val.toNat then true
    else if b.val.toNat < a.val.toNat then false
    else lexLe as bs

theorem lexLe_iff : ∀ xs ys : List Char, lexLe xs ys = true ↔ ¬ List.Lex (· < ·) ys xs
  | [], ys => by
      simp [lexLe, List.Lex.not_nil_right]
  | x :: xs, [] => by
      simp only [lexLe]
      exact iff_of_false (by simp) (not_not_intro List.Lex.nil)
  | x :: xs, y :: ys => by
      simp only [lexLe]
      rcases Nat.lt_trichotomy x.val.toNat y.val.toNat with h | h | h
      · rw [if_pos h]
        refine iff_of_true rfl (fun hlex => ?_)
        cases hlex with
        | cons h' => exact Nat.lt_irrefl _ h
        | rel h' => exact Nat.lt_asymm h h'
      · have h1 : ¬ x < y := fun hl => absurd (show x.val.toNat < y.val.toNat from hl) (by omega)
        have h2 : ¬ y < x := fun hl => absurd (show y.val.toNat < x.val.toNat from hl) (by omega)
        have hxy : x = y := le_antisymm (le_of_not_lt h2) (le_of_not_lt h1)
        subst hxy
        rw [if_neg (Nat.lt_irrefl _), if_neg (Nat.lt_irrefl _)]
        rw [lexLe_iff xs ys]
        constructor
        · intro hn hlex
          cases hlex with
          | cons h' => exact hn h'
          | rel h' => exact absurd h' (lt_irrefl x)
        · intro hn h' ; exact hn (List.Lex.cons h')
      · rw [if_neg (Nat.lt_asymm h), if_pos h]
        exact iff_of_false (by simp) (not_not_intro (List.Lex.rel h))

/-- Boolean `≤` on strings, by code point. -/
def strLe (a b : String) : Bool := lexLe a.data b.data

theorem strLe_iff (a b : String) : strLe a b = true ↔ a ≤ b := by
  rw [strLe, lexLe_iff, String.le_iff_toList_le]
  exact @not_lt (List Char) _ b.toList a.toList

/-- `strLe` as a decidable relation, for sorting. -/
def strLeP (a b : String) : Prop := strLe a b = true

instance : DecidableRel strLeP := fun a b => instDecidableEqBool (strLe a b) true

instance : IsTotal String strLeP :=
  ⟨fun (a b : String) => by
    rcases @le_total String _ a b with h | h
    · exact Or.inl ((strLe_iff a b).mpr h)
    · exact Or.inr ((strLe_iff b a).mpr h)⟩

instance : IsTrans String strLeP :=
  ⟨fun a b c hab hbc =>
    (strLe_iff a c).mpr (le_trans ((strLe_iff a b).mp hab) ((strLe_iff b c).mp hbc))⟩

/-! ### Session results (`app.py`) -/

/-- `EvaluationResult` dataclass from `src/data_models.py` (`raw_response`
is diagnostics only and is omitted). -/
structure EvaluationResult where
  student : Student
  scores : Dict Rat
  feedback : Dict String
  overall_feedback : String
deriving DecidableEq, Repr

/-- Creation of an `EvaluationResult` in the evaluation loop of `app.py`:
for each entry of `result_json["results"]` with a truthy `question_id`,
assign into `scores` and `feedback`; `overall_feedback` comes from the
outcome. -/
def create_result (student : Student) (result_json : Outcome) : EvaluationResult :=
  let sf := result_json.results.foldl
    (fun sf q =>
      if q.question_id.isEmpty then sf
      else (dinsert sf.1 q.question_id q.score, dinsert sf.2 q.question_id q.feedback))
    (([] : Dict Rat), ([] : Dict String))
  { student := student
    scores := sf.1
    feedback := sf.2
    overall_feedback := result_json.overall_feedback }

/-- The review-edit loop of `app.py` (both the single-student and the
all-students variant): each edited row assigns `result.scores[q_id]` and
`result.feedback[q_id]` in lockstep. -/
def edit_result (result : EvaluationResult) (rows : List (String × Rat × String)) :
    EvaluationResult :=
  rows.foldl
    (fun r row =>
      { r with
        scores := dinsert r.scores row.1 row.2.1
        feedback := dinsert r.feedback row.1 row.2.2 })
    result

/-! ### Export projections (`src/csv_utils.py`) -/

/-- A CSV/pivot cell: pandas receives either a string or a number here
(an absent pivot value is the empty string, not a number). -/
inductive Cell where
  | s (v : String)
  | n (v : Rat)
deriving DecidableEq, Repr

/-- One output row: ordered column-name/value pairs, as the Python dicts
handed to `pd.DataFrame`. -/
abbrev Row := List (String × Cell)

/-- `format_output_for_csv` from `src/csv_utils.py`: one row per
`(student, question)` pair, questions in the student's `scores` iteration
order. -/
def format_output_for_csv (results : List EvaluationResult) : List Row :=
  results.foldl
    (fun formatted_data result =>
      formatted_data ++ result.scores.map (fun qs =>
        [("Student Name", Cell.s result.student.name),
         ("Roll Number", Cell.s result.student.roll_number),
         ("PDF Filename", Cell.s result.student.pdf_filename),
         ("Question ID", Cell.s qs.1),
         ("Score", Cell.n qs.2),
         ("Feedback", Cell.s ((dget result.feedback qs.1).getD ""))]))
    []

/-- The overall-feedback trailer row appended by `export_results_to_csv`. -/
def trailerRow (result : EvaluationResult) : Row :=
  [("Student Name", Cell.s result.student.name),
   ("Roll Number", Cell.s result.student.roll_number),
   ("PDF Filename", Cell.s result.student.pdf_filename),
   ("Question ID", Cell.s "OVERALL_FEEDBACK"),
   ("Score", Cell.s ""),
   ("Feedback", Cell.s result.overall_feedback)]

/-- `export_results_to_csv` from `src/csv_utils.py`, up to the pandas
`to_csv` serialization: the list of row dicts handed to `pd.DataFrame`. -/
def export_results_to_csv (results : List EvaluationResult) : List Row :=
  let all_data := format_output_for_csv results
  results.foldl (fun all_data result => all_data ++ [trailerRow result]) all_data

/-- The `set`-building loop of `export_results_to_pivot_table`: add each
key of each student's `scores` once. -/
def addKeys (acc : List String) (ks : List String) : List String :=
  ks.foldl (fun a k => if k ∈ a then a else a ++ [k]) acc

/-- `sorted(list(all_question_ids))`: the union of all `scores` keys,
sorted ascending by code point. -/
def pivotIds (results : List EvaluationResult) : List String :=
  List.insertionSort strLeP
    (results.foldl (fun acc r => addKeys acc (dkeys r.scores)) [])

/-- `export_results_to_pivot_table` from `src/csv_utils.py`, up to the
pandas `to_csv` serialization: one row dict per student, with
`Score_<id>` / `Feedback_<id>` columns for every id in the sorted union;
missing values are `.get(q_id, "")`, the empty string. -/
def export_results_to_pivot_table (results : List EvaluationResult) : List Row :=
  let all_question_ids := pivotIds results
  results.foldl
    (fun rows result =>
      rows ++
        [[("Student Name", Cell.s result.student.name),
          ("Roll Number", Cell.s result.student.roll_number),
          ("Overall Feedback", Cell.s result.overall_feedback)] ++
         all_question_ids.foldl
           (fun row q_id =>
             row ++
               [("Score_" ++ q_id,
                  match dget result.scores q_id with
                  | some v => Cell.n v
                  | none => Cell.s ""),
                ("Feedback_" ++ q_id, Cell.s ((dget result.feedback q_id).getD ""))])
           []])
    []

/-- JSON values, as built by `export_results_to_json` before `json.dumps`. -/
inductive Json where
  | str (v : String)
  | num (v : Rat)
  | arr (xs : List Json)
  | obj (fields : List (String × Json))

/-- `export_results_to_json` from `src/csv_utils.py`: the Python object
graph passed to `json.dumps(output, indent=2)`, paired with that `indent`
argument (the textual rendering itself is the json library's). -/
def export_results_to_json (results : List EvaluationResult) : Json × Nat :=
  let output := results.foldl
    (fun output result =>
      let evaluations := result.scores.foldl
        (fun evaluations qs =>
          evaluations ++
            [Json.obj
              [("question_id", Json.str qs.1),
               ("score", Json.num qs.2),
               ("feedback", Json.str ((dget result.feedback qs.1).getD ""))]])
        []
      output ++
        [Json.obj
          [("student",
             Json.obj
               [("name", Json.str result.student.name),
                ("roll_number", Json.str result.student.roll_number),
                ("pdf_filename", Json.str result.student.pdf_filename)]),
           ("evaluations", Json.arr evaluations),
           ("overall_feedback", Json.str result.overall_feedback)]])
    []
  (Json.arr output, 2)

/-! ### Helper lemmas -/

theorem foldl_append_eq {α β : Type} (f : α → List β) :
    ∀ (l : List α) (init : List β),
      l.foldl (fun acc a => acc ++ f a) init = init ++ l.flatMap f
  | [], init => by simp
  | a :: l, init => by
      simp only [List.foldl_cons, List.flatMap_cons]
      rw [foldl_append_eq f l (init ++ f a), List.append_assoc]

theorem flatMap_single {α β : Type} (g : α → β) :
    ∀ l : List α, l.flatMap (fun a => [g a]) = l.map g
  | [] => rfl
  | a :: l => by
      simp only [List.flatMap_cons, List.map_cons, List.singleton_append]
      rw [flatMap_single g l]

theorem foldl_str_append :
    ∀ (l : List String) (init : String),
      l.foldl (· ++ ·) init = init ++ l.foldl (· ++ ·) ""
  | [], init => (String.append_empty init).symm
  | a :: l, init => by
      simp only [List.foldl_cons]
      rw [foldl_str_append l (init ++ a), foldl_str_append l ("" ++ a),
        String.empty_append, String.append_assoc]

theorem join_cons (s : String) (l : List String) :
    String.join (s :: l) = s ++ String.join l := by
  show (s :: l).foldl (· ++ ·) "" = s ++ l.foldl (· ++ ·) ""
  rw [List.foldl_cons, foldl_str_append l ("" ++ s), String.empty_append]

theorem foldl_append_join {α : Type} (f : α → String) :
    ∀ (l : List α) (init : String),
      l.foldl (fun acc a => acc ++ f a) init = init ++ String.join (l.map f)
  | [], init => by
      show init = init ++ String.join []
      rw [show String.join [] = "" from rfl, String.append_empty]
  | a :: l, init => by
      simp only [List.foldl_cons, List.map_cons]
      rw [foldl_append_join f l (init ++ f a), join_cons, String.append_assoc]

theorem dkeys_dinsert {β : Type} (d : Dict β) (k : String) (v : β) :
    dkeys (dinsert d k v) = if k ∈ dkeys d then dkeys d else dkeys d ++ [k] := by
  unfold dinsert dkeys
  by_cases h : k ∈ d.map Prod.fst
  · rw [if_pos h]
    have hany : d.any (fun p => decide (p.1 = k)) = true := by
      rw [List.any_eq_true]
      obtain ⟨p, hp, hpk⟩ := List.mem_map.mp h
      exact ⟨p, hp, by simp [hpk]⟩
    rw [if_pos hany, List.map_map]
    apply List.map_congr_left
    intro p _
    by_cases hpk : p.1 = k
    · simp [hpk]
    · simp [hpk]
  · rw [if_neg h]
    have hany : d.any (fun p => decide (p.1 = k)) = false := by
      rw [List.any_eq_false]
      intro p hp hpk
      exact h (List.mem_map.mpr ⟨p, hp, by simpa using hpk⟩)
    rw [hany]
    simp

/-- The scores/feedback accumulation loop of `create_result` keeps the two
key lists equal. -/
theorem create_foldl_keys (entries : List ResultEntry) :
    ∀ (s : Dict Rat) (f : Dict String), dkeys s = dkeys f →
      dkeys (entries.foldl
        (fun sf q =>
          if q.question_id.isEmpty then sf
          else (dinsert sf.1 q.question_id q.score, dinsert sf.2 q.question_id q.feedback))
        (s, f)).1
      = dkeys (entries.foldl
        (fun sf q =>
          if q.question_id.isEmpty then sf
          else (dinsert sf.1 q.question_id q.score, dinsert sf.2 q.question_id q.feedback))
        (s, f)).2 := by
  induction entries with
  | nil => intro s f h; exact h
  | cons q rest ih =>
    intro s f h
    simp only [List.foldl_cons]
    by_cases hq : q.question_id.isEmpty
    · rw [if_pos hq]
      exact ih s f h
    · rw [if_neg hq]
      exact ih _ _ (by rw [dkeys_dinsert, dkeys_dinsert, h])

theorem edit_foldl_keys (rows : List (String × Rat × String)) :
    ∀ r : EvaluationResult, dkeys r.scores = dkeys r.feedback →
      dkeys (edit_result r rows).scores = dkeys (edit_result r rows).feedback := by
  induction rows with
  | nil => intro r h; exact h
  | cons row rest ih =>
    intro r h
    show dkeys (edit_result _ rest).scores = dkeys (edit_result _ rest).feedback
    exact ih _ (by simp only [dkeys_dinsert, h])

/-- C9: for every `EvaluationResult` in the session result collection, the
key set of its `scores` mapping equals the key set of its `feedback`
mapping, and this equality is preserved by every operation that creates or
edits a result: creation in the evaluation loop assigns both maps in
lockstep (skipping falsy ids), and both review-edit loops assign both maps
at the same `q_id` for every edited row. -/
theorem scores_feedback_key_sets_match (student : Student) (o : Outcome)
    (r : EvaluationResult) (rows : List (String × Rat × String))
    (h : dkeys r.scores = dkeys r.feedback) :
    dkeys (create_result student o).scores = dkeys (create_result student o).feedback ∧
    dkeys (edit_result r rows).scores = dkeys (edit_result r rows).feedback := by
  constructor
  · exact create_foldl_keys o.results [] [] rfl
  · exact edit_foldl_keys rows r h

/-- Witness for C9 at a concrete result, outcome and edit batch. -/
theorem scores_feedback_key_sets_match_witness :
    dkeys ({ student := ⟨"A", "101", "a.pdf"⟩, scores := [("Q1", 5)],
             feedback := [("Q1", "fine")], overall_feedback := "ok" } :
             EvaluationResult).scores
      = dkeys ({ student := ⟨"A", "101", "a.pdf"⟩, scores := [("Q1", 5)],
                 feedback := [("Q1", "fine")], overall_feedback := "ok" } :
                 EvaluationResult).feedback ∧
    (dkeys (create_result ⟨"B", "102", "b.pdf"⟩
        { error := none, results := [⟨"Q1", "q", 7, "f"⟩, ⟨"", "u", 1, "g"⟩],
          overall_feedback := "o" }).scores
      = dkeys (create_result ⟨"B", "102", "b.pdf"⟩
        { error := none, results := [⟨"Q1", "q", 7, "f"⟩, ⟨"", "u", 1, "g"⟩],
          overall_feedback := "o" }).feedback ∧
     dkeys (edit_result
        { student := ⟨"A", "101", "a.pdf"⟩, scores := [("Q1", 5)],
          feedback := [("Q1", "fine")], overall_feedback := "ok" }
        [("Q2", 3, "new"), ("Q1", 4, "upd")]).scores
      = dkeys (edit_result
        { student := ⟨"A", "101", "a.pdf"⟩, scores := [("Q1", 5)],
          feedback := [("Q1", "fine")], overall_feedback := "ok" }
        [("Q2", 3, "new"), ("Q1", 4, "upd")]).feedback) :=
  ⟨by decide,
   scores_feedback_key_sets_match ⟨"B", "102", "b.pdf"⟩
     { error := none, results := [⟨"Q1", "q", 7, "f"⟩, ⟨"", "u", 1, "g"⟩],
       overall_feedback := "o" }
     { student := ⟨"A", "101", "a.pdf"⟩, scores := [("Q1", 5)],
       feedback := [("Q1", "fine")], overall_feedback := "ok" }
     [("Q2", 3, "new"), ("Q1", 4, "upd")] (by decide)⟩

theorem gem_error_ne_empty (msg : String) :
    "Failed to process with Gemini: " ++ msg ≠ "" := by
  intro h
  have hd := congrArg String.data h
  rw [String.data_append "Failed to process with Gemini: " msg] at hd
  exact absurd (List.append_eq_nil.mp hd).1 (by decide)

/-- From `dget d k = some v`, the key is among `dkeys d`. -/
theorem mem_dkeys_of_dget {β : Type} {d : Dict β} {k : String} {v : β}
    (h : dget d k = some v) : k ∈ dkeys d := by
  have hs : (d.lookup k).isSome := by rw [show d.lookup k = dget d k from rfl, h]; rfl
  obtain ⟨p, hp, hpk⟩ := List.lookup_isSome_iff.mp hs
  exact List.mem_map.mpr ⟨p, hp, (eq_of_beq hpk).symm⟩

/-- C1 counterexample: with the API credential absent, the call raises
`ValueError` (an `Except.error`) rather than returning an outcome
dictionary, contradicting the claim that a missing credential is
converted to an error-carrying outcome. -/
theorem evaluate_raises_on_missing_key :
    evaluate_with_gemini none [] [("Q1", ⟨"q", "a"⟩)] [⟨"C", "e"⟩] (.exn "network down")
      = .error "GEMINI_API_KEY not set in environment." := by
  rfl

/-- C1 (amended): once the API credential is present (truthy), the call
never propagates an exception: it always returns an outcome; whenever
that outcome carries an `error` value the value is non-empty, `results`
is empty and `overall_feedback` is the fixed fallback string; and the
outcome does carry an error whenever the external call raised or its raw
text failed JSON parsing.  A falsy credential instead raises `ValueError`
before the call. -/
theorem evaluate_no_raise_with_key (apiKey : Option String) (pdf : List UInt8)
    (qd : QuestionMap) (cl : List RubricCriteria) (call : GenResult)
    (hkey : keyFalsy apiKey = false) :
    ∃ o : Outcome, evaluate_with_gemini apiKey pdf qd cl call = .ok o ∧
      (∀ e, o.error = some e →
        e ≠ "" ∧ o.results = [] ∧
          o.overall_feedback = "Error occurred during evaluation.") ∧
      (∀ msg, call = .exn msg → o.error ≠ none) ∧
      (call = .rawText none → o.error ≠ none) := by
  cases call with
  | exn msg =>
      refine ⟨errorOutcome msg, by simp [evaluate_with_gemini, hkey], ?_, ?_, ?_⟩
      · intro e he
        have he' : e = "Failed to process with Gemini: " ++ msg := by
          simpa [errorOutcome] using he.symm
        subst he'
        exact ⟨gem_error_ne_empty msg, rfl, rfl⟩
      · intro msg' _
        simp [errorOutcome]
      · intro hc
        exact absurd hc (by simp)
  | parsedDict d =>
      refine ⟨normalizeDict d qd, by simp [evaluate_with_gemini, hkey], ?_, ?_, ?_⟩
      · intro e he
        exact absurd he (by simp [normalizeDict])
      · intro msg hc
        exact absurd hc (by simp)
      · intro hc
        exact absurd hc (by simp)
  | parsedObj o =>
      refine ⟨normalizeObj o qd, by simp [evaluate_with_gemini, hkey], ?_, ?_, ?_⟩
      · intro e he
        exact absurd he (by simp [normalizeObj])
      · intro msg hc
        exact absurd hc (by simp)
      · intro hc
        exact absurd hc (by simp)
  | rawText r =>
      cases r with
      | none =>
          refine ⟨errorOutcome "Expecting value: line 1 column 1 (char 0)",
            by simp [evaluate_with_gemini, hkey], ?_, ?_, ?_⟩
          · intro e he
            have he' : e = "Failed to process with Gemini: " ++
                "Expecting value: line 1 column 1 (char 0)" := by
              simpa [errorOutcome] using he.symm
            subst he'
            exact ⟨gem_error_ne_empty _, rfl, rfl⟩
          · intro msg hc
            exact absurd hc (by simp)
          · intro _
            simp [errorOutcome]
      | some root =>
          refine ⟨normalizeRaw root qd, by simp [evaluate_with_gemini, hkey], ?_, ?_, ?_⟩
          · intro e he
            exact absurd he (by simp [normalizeRaw])
          · intro msg hc
            exact absurd hc (by simp)
          · intro hc
            exact absurd hc (by simp)

/-- Witness for C1 (amended) at a present credential and a raising call. -/
theorem evaluate_no_raise_with_key_witness :
    keyFalsy (some "k") = false ∧
    (∃ o : Outcome,
      evaluate_with_gemini (some "k") [] [("Q1", ⟨"q", "a"⟩)] [] (.exn "boom") = .ok o ∧
      (∀ e, o.error = some e →
        e ≠ "" ∧ o.results = [] ∧
          o.overall_feedback = "Error occurred during evaluation.") ∧
      (∀ msg, GenResult.exn "boom" = .exn msg → o.error ≠ none) ∧
      (GenResult.exn "boom" = .rawText none → o.error ≠ none)) :=
  ⟨by decide,
   evaluate_no_raise_with_key (some "k") [] [("Q1", ⟨"q", "a"⟩)] [] (.exn "boom") (by decide)⟩

/-- C2 counterexample: in the structured-response path an entry whose
`question_id` is missing is NOT dropped: it is kept with the id defaulted
to `""` and the question backfilled as `"Unknown question"`. -/
theorem structured_path_keeps_missing_id :
    evaluate_with_gemini (some "k") [] [("Q1", ⟨"q", "a"⟩)] []
      (.parsedDict ⟨some [⟨none, some 5, some "f"⟩], some "of"⟩)
      = .ok { error := none,
              results := [⟨"", "Unknown question", 5, "f"⟩],
              overall_feedback := "of" } := by
  rfl

/-- C2 (amended): the structured-response path (dict case) drops nothing
— every entry of the response is kept, a missing `question_id` defaulting
to the empty string — while in the raw-JSON fallback path exactly those
entries are kept whose `question_id` is truthy (non-empty) and present as
a key of the input questions map. -/
theorem normalizer_keep_drop_paths (root : RawRoot) (qd : QuestionMap) :
    ((normalizeDict root qd).results.length
        = (root.question_evaluations.getD []).length ∧
     ∀ i : Nat,
       ((normalizeDict root qd).results.get? i).map (fun en => en.question_id)
         = ((root.question_evaluations.getD []).get? i).map
             (fun e => e.question_id.getD "")) ∧
    (normalizeRaw root qd).results.map (fun en => en.question_id)
      = ((root.question_evaluations.getD []).map (fun e => e.question_id.getD "")).filter
          (fun q => !q.isEmpty && (dget qd q).isSome) := by
  refine ⟨⟨by simp [normalizeDict], ?_⟩, ?_⟩
  · intro i
    simp only [normalizeDict, List.get?_eq_getElem?, List.getElem?_map]
    cases (root.question_evaluations.getD [])[i]? <;> rfl
  · show ((root.question_evaluations.getD []).filterMap _).map _ = _
    generalize root.question_evaluations.getD [] = evals
    induction evals with
    | nil => rfl
    | cons e rest ih =>
        by_cases he : (e.question_id.getD "").isEmpty
        · simp only [List.filterMap_cons, List.map_cons, List.filter_cons]
          simp [he, ih]
        · cases hg : dget qd (e.question_id.getD "") with
          | some q =>
              simp only [List.filterMap_cons, List.map_cons, List.filter_cons]
              simp [he, hg, ih]
          | none =>
              simp only [List.filterMap_cons, List.map_cons, List.filter_cons]
              simp [he, hg, ih]

/-- C3 counterexample: the structured path, given a non-empty questions
map, can produce a non-error outcome whose single entry has a
`question_id` (the defaulted `""`) that is not a key of the map, and a
score `-1 < 0` (scores are copied, not clamped). -/
theorem structured_entry_outside_map_and_negative :
    (normalizeDict ⟨some [⟨none, some (-1), none⟩], none⟩ [("Q1", ⟨"q", "a"⟩)]).error
      = none ∧
    [("Q1", (⟨"q", "a"⟩ : QuestionRubric))] ≠ ([] : QuestionMap) ∧
    ((normalizeDict ⟨some [⟨none, some (-1), none⟩], none⟩
        [("Q1", ⟨"q", "a"⟩)]).results.map
      (fun en => (decide (en.question_id ∈ dkeys [("Q1", (⟨"q", "a"⟩ : QuestionRubric))]),
                  decide (0 ≤ en.score))))
      = [(false, false)] := by
  refine ⟨rfl, by decide, by decide⟩

/-- C3 (amended): the guarantee holds on the raw-JSON fallback path:
every entry of such an outcome has a non-empty `question_id` that is a
key of the input questions map, and its score is `≥ 0` provided every
score value present in the raw response is `≥ 0` (a missing score
defaults to 0).  The structured path gives no such guarantee (see the
counterexample). -/
theorem raw_path_entries_in_map (root : RawRoot) (qd : QuestionMap)
    (entry : ResultEntry) (hmem : entry ∈ (normalizeRaw root qd).results) :
    entry.question_id ≠ "" ∧ entry.question_id ∈ dkeys qd ∧
    ((∀ e ∈ root.question_evaluations.getD [], ∀ s, e.score = some s → 0 ≤ s) →
      0 ≤ entry.score) := by
  have hmem' : entry ∈ (root.question_evaluations.getD []).filterMap
      (fun e =>
        let qid := e.question_id.getD ""
        if qid.isEmpty then none
        else
          match dget qd qid with
          | some q =>
              some { question_id := qid
                     question := q.question
                     score := e.score.getD 0
                     feedback := e.feedback.getD "" }
          | none => none) := hmem
  obtain ⟨e, he, hfe⟩ := List.mem_filterMap.mp hmem'
  by_cases hq : (e.question_id.getD "").isEmpty
  · simp only [hq, if_pos rfl] at hfe
    exact absurd hfe (by simp)
  · rw [if_neg (by simp [hq])] at hfe
    cases hg : dget qd (e.question_id.getD "") with
    | none => rw [hg] at hfe; exact absurd hfe (by simp)
    | some q =>
        rw [hg] at hfe
        have hentry := (Option.some.injEq _ _).mp hfe
        refine ⟨?_, ?_, ?_⟩
        · rw [← hentry]
          exact fun hc => absurd (String.isEmpty_iff _ |>.mpr hc) (by simp [hq])
        · rw [← hentry]
          exact mem_dkeys_of_dget hg
        · intro hall
          rw [← hentry]
          cases hs : e.score with
          | none => simp [hs]
          | some s => simpa [hs] using hall e he s hs

/-- Witness for C3 (amended) at a concrete raw response and entry. -/
theorem raw_path_entries_in_map_witness :
    (⟨"Q1", "q", 7, "f"⟩ : ResultEntry) ∈
      (normalizeRaw ⟨some [⟨some "Q1", some 7, some "f"⟩], none⟩
        [("Q1", ⟨"q", "a"⟩)]).results ∧
    ((⟨"Q1", "q", 7, "f"⟩ : ResultEntry).question_id ≠ "" ∧
     (⟨"Q1", "q", 7, "f"⟩ : ResultEntry).question_id ∈
       dkeys [("Q1", (⟨"q", "a"⟩ : QuestionRubric))] ∧
     ((∀ e ∈ (⟨some [⟨some "Q1", some 7, some "f"⟩], none⟩ :
          RawRoot).question_evaluations.getD [], ∀ s, e.score = some s → 0 ≤ s) →
       0 ≤ (⟨"Q1", "q", 7, "f"⟩ : ResultEntry).score)) :=
  ⟨by decide,
   raw_path_entries_in_map ⟨some [⟨some "Q1", some 7, some "f"⟩], none⟩
     [("Q1", ⟨"q", "a"⟩)] ⟨"Q1", "q", 7, "f"⟩ (by decide)⟩

set_option maxRecDepth 20000 in
/-- C4 counterexample: the prompt built for a concrete rubric never
mentions half-point granularity (no "half", no "0.5") nor a literal
`overall_feedback` field requirement, though it does state the 0-10
scale; so the claimed closing-instruction content is absent. -/
theorem prompt_lacks_half_point_and_overall_feedback :
    containsSub (build_prompt [⟨"Clarity", "clear"⟩] [("Q1", ⟨"q", "a"⟩)])
        "overall_feedback" = false ∧
    containsSub (build_prompt [⟨"Clarity", "clear"⟩] [("Q1", ⟨"q", "a"⟩)])
        "half" = false ∧
    containsSub (build_prompt [⟨"Clarity", "clear"⟩] [("Q1", ⟨"q", "a"⟩)])
        "0.5" = false ∧
    containsSub (build_prompt [⟨"Clarity", "clear"⟩] [("Q1", ⟨"q", "a"⟩)])
        "(0-10)" = true := by
  refine ⟨by decide, by decide, by decide, by decide⟩

set_option maxRecDepth 20000 in
/-- C4 (amended): the prompt is exactly, in order: the fixed preamble,
each criterion rendered as `R<position+1>. <title>: <explanation>` in
positional order, each question rendered as `<question_id>: <question>`
followed by `Standard Answer: <standard_answer>` in map insertion order,
and fixed closing instructions that state the 0-10 scoring scale and ask
for an overall assessment — but say nothing about half-point granularity
and do not name an `overall_feedback` field. -/
theorem build_prompt_structure (cl : List RubricCriteria) (qd : QuestionMap) :
    build_prompt cl qd =
      "You are an AI evaluator. Use the following rubric criteria and questions to evaluate the student's PDF response.\n\n"
      ++ "RUBRIC CRITERIA:\n"
      ++ String.join (cl.enum.map (fun ic =>
            "R" ++ toString (ic.1 + 1) ++ ". " ++ ic.2.title ++ ": "
              ++ ic.2.explanation ++ "\n"))
      ++ "\nQUESTIONS AND STANDARD ANSWERS:\n"
      ++ String.join (qd.map (fun q =>
            q.1 ++ ": " ++ q.2.question ++ "\nStandard Answer: "
              ++ q.2.standard_answer ++ "\n\n"))
      ++ "\nINSTRUCTIONS:\n1. Evaluate the student's response against each question and the rubric criteria.\n2. For each question, provide a score (0-10) and detailed feedback.\n3. Provide an overall assessment of the student's work.\n" ∧
    containsSub "\nINSTRUCTIONS:\n1. Evaluate the student's response against each question and the rubric criteria.\n2. For each question, provide a score (0-10) and detailed feedback.\n3. Provide an overall assessment of the student's work.\n" "(0-10)" = true := by
  constructor
  · show (qd.foldl _ ((cl.enum.foldl _ _) ++ _)) ++ _ ++ _ ++ _ ++ _ = _
    rw [foldl_append_join
      (fun ic : Nat × RubricCriteria =>
        "R" ++ toString (ic.1 + 1) ++ ". " ++ ic.2.title ++ ": " ++ ic.2.explanation ++ "\n")
      cl.enum]
    rw [foldl_append_join
      (fun q : String × QuestionRubric =>
        q.1 ++ ": " ++ q.2.question ++ "\nStandard Answer: " ++ q.2.standard_answer ++ "\n\n")
      qd]
    simp only [String.append_assoc]
    rfl
  · decide

theorem mem_addKeys (q : String) :
    ∀ (ks acc : List String), q ∈ addKeys acc ks ↔ q ∈ acc ∨ q ∈ ks
  | [], acc => by simp [addKeys]
  | k :: ks, acc => by
      show q ∈ addKeys (if k ∈ acc then acc else acc ++ [k]) ks ↔ _
      rw [mem_addKeys q ks]
      by_cases hk : k ∈ acc
      · rw [if_pos hk]
        constructor
        · rintro (h | h)
          · exact Or.inl h
          · exact Or.inr (List.mem_cons_of_mem _ h)
        · rintro (h | h)
          · exact Or.inl h
          · rcases List.mem_cons.mp h with rfl | h
            · exact Or.inl hk
            · exact Or.inr h
      · rw [if_neg hk]
        simp only [List.mem_append, List.mem_singleton, List.mem_cons]
        tauto

theorem nodup_addKeys :
    ∀ (ks acc : List String), acc.Nodup → (addKeys acc ks).Nodup
  | [], acc, h => h
  | k :: ks, acc, h => by
      show (addKeys (if k ∈ acc then acc else acc ++ [k]) ks).Nodup
      by_cases hk : k ∈ acc
      · rw [if_pos hk]
        exact nodup_addKeys ks acc h
      · rw [if_neg hk]
        refine nodup_addKeys ks (acc ++ [k]) ?_
        simp [List.nodup_append, h, hk]

theorem mem_scoresUnionFold (q : String) :
    ∀ (results : List EvaluationResult) (acc : List String),
      q ∈ results.foldl (fun acc r => addKeys acc (dkeys r.scores)) acc
        ↔ q ∈ acc ∨ ∃ r ∈ results, q ∈ dkeys r.scores
  | [], acc => by simp
  | r :: results, acc => by
      rw [List.foldl_cons, mem_scoresUnionFold q results, mem_addKeys]
      simp only [List.mem_cons]
      constructor
      · rintro ((h | h) | ⟨r', hr', h⟩)
        · exact Or.inl h
        · exact Or.inr ⟨r, Or.inl rfl, h⟩
        · exact Or.inr ⟨r', Or.inr hr', h⟩
      · rintro (h | ⟨r', rfl | hr', h⟩)
        · exact Or.inl (Or.inl h)
        · exact Or.inl (Or.inr h)
        · exact Or.inr ⟨r', hr', h⟩

theorem nodup_scoresUnionFold :
    ∀ (results : List EvaluationResult) (acc : List String), acc.Nodup →
      (results.foldl (fun acc r => addKeys acc (dkeys r.scores)) acc).Nodup
  | [], _, h => h
  | r :: results, acc, h =>
      nodup_scoresUnionFold results (addKeys acc (dkeys r.scores))
        (nodup_addKeys (dkeys r.scores) acc h)

theorem mem_pivotIds (q : String) (results : List EvaluationResult) :
    q ∈ pivotIds results ↔ ∃ r ∈ results, q ∈ dkeys r.scores := by
  rw [pivotIds, List.mem_insertionSort, mem_scoresUnionFold]
  simp

theorem sorted_pivotIds (results : List EvaluationResult) :
    List.Sorted (· ≤ ·) (pivotIds results) :=
  (List.sorted_insertionSort strLeP _).imp (fun h => (strLe_iff _ _).mp h)

theorem nodup_pivotIds (results : List EvaluationResult) :
    (pivotIds results).Nodup :=
  (List.perm_insertionSort strLeP _).nodup_iff.mpr
    (nodup_scoresUnionFold results [] List.nodup_nil)

/-- Normal form of the pivot export: one row per student, in input order,
with the base columns followed by the `Score_` / `Feedback_` column pairs
over the sorted union of question ids. -/
theorem pivot_eq (results : List EvaluationResult) :
    export_results_to_pivot_table results
      = results.map (fun r =>
          [("Student Name", Cell.s r.student.name),
           ("Roll Number", Cell.s r.student.roll_number),
           ("Overall Feedback", Cell.s r.overall_feedback)] ++
          (pivotIds results).flatMap (fun q =>
            [("Score_" ++ q,
               match dget r.scores q with
               | some v => Cell.n v
               | none => Cell.s ""),
             ("Feedback_" ++ q, Cell.s ((dget r.feedback q).getD ""))])) := by
  show results.foldl _ [] = _
  rw [foldl_append_eq
    (fun result : EvaluationResult =>
      [[("Student Name", Cell.s result.student.name),
        ("Roll Number", Cell.s result.student.roll_number),
        ("Overall Feedback", Cell.s result.overall_feedback)] ++
       (pivotIds results).foldl
         (fun row q_id =>
           row ++
             [("Score_" ++ q_id,
                match dget result.scores q_id with
                | some v => Cell.n v
                | none => Cell.s ""),
              ("Feedback_" ++ q_id, Cell.s ((dget result.feedback q_id).getD ""))])
         []])
    results []]
  rw [flatMap_single]
  rw [List.nil_append]
  apply List.map_congr_left
  intro r _
  congr 1
  rw [foldl_append_eq
    (fun q_id : String =>
      [("Score_" ++ q_id,
         match dget r.scores q_id with
         | some v => Cell.n v
         | none => Cell.s ""),
       ("Feedback_" ++ q_id, Cell.s ((dget r.feedback q_id).getD ""))])
    (pivotIds results) []]
  rw [List.nil_append]

/-- C5: the pivot export has exactly one row per result, in input order;
the union of question ids is drawn from the results' `scores` keys,
sorted ascending without duplicates; each row is the base columns
(Student Name, Roll Number, Overall Feedback) followed by `Score_<id>`
and `Feedback_<id>` for every id of the union; and a student lacking an
id gets the empty string (not zero) in both cells, via the `none`
branches. -/
theorem pivot_rows_shape (results : List EvaluationResult) :
    (export_results_to_pivot_table results).length = results.length ∧
    List.Sorted (· ≤ ·) (pivotIds results) ∧
    (pivotIds results).Nodup ∧
    (∀ q, q ∈ pivotIds results ↔ ∃ r ∈ results, q ∈ dkeys r.scores) ∧
    (∀ i : Nat,
      (export_results_to_pivot_table results).get? i
        = (results.get? i).map (fun r =>
            [("Student Name", Cell.s r.student.name),
             ("Roll Number", Cell.s r.student.roll_number),
             ("Overall Feedback", Cell.s r.overall_feedback)] ++
            (pivotIds results).flatMap (fun q =>
              [("Score_" ++ q,
                 match dget r.scores q with
                 | some v => Cell.n v
                 | none => Cell.s ""),
               ("Feedback_" ++ q, Cell.s ((dget r.feedback q).getD ""))]))) := by
  refine ⟨?_, sorted_pivotIds results, nodup_pivotIds results,
    fun q => mem_pivotIds q results, ?_⟩
  · rw [pivot_eq, List.length_map]
  · intro i
    rw [pivot_eq, List.get?_eq_getElem?, List.get?_eq_getElem?, List.getElem?_map]

/-- Normal form of the detailed export: question rows for all students,
then one trailer row per student. -/
theorem csv_eq (results : List EvaluationResult) :
    export_results_to_csv results
      = results.flatMap (fun r => r.scores.map (fun qs =>
          [("Student Name", Cell.s r.student.name),
           ("Roll Number", Cell.s r.student.roll_number),
           ("PDF Filename", Cell.s r.student.pdf_filename),
           ("Question ID", Cell.s qs.1),
           ("Score", Cell.n qs.2),
           ("Feedback", Cell.s ((dget r.feedback qs.1).getD ""))]))
        ++ results.map (fun r =>
          [("Student Name", Cell.s r.student.name),
           ("Roll Number", Cell.s r.student.roll_number),
           ("PDF Filename", Cell.s r.student.pdf_filename),
           ("Question ID", Cell.s "OVERALL_FEEDBACK"),
           ("Score", Cell.s ""),
           ("Feedback", Cell.s r.overall_feedback)]) := by
  show results.foldl _ (format_output_for_csv results) = _
  rw [foldl_append_eq (fun result : EvaluationResult => [trailerRow result]) results
    (format_output_for_csv results)]
  rw [flatMap_single]
  congr 1
  show results.foldl _ [] = _
  rw [foldl_append_eq
    (fun result : EvaluationResult =>
      result.scores.map (fun qs =>
        [("Student Name", Cell.s result.student.name),
         ("Roll Number", Cell.s result.student.roll_number),
         ("PDF Filename", Cell.s result.student.pdf_filename),
         ("Question ID", Cell.s qs.1),
         ("Score", Cell.n qs.2),
         ("Feedback", Cell.s ((dget result.feedback qs.1).getD ""))]))
    results []]
  rw [List.nil_append]

/-- C6: the detailed export is exactly one row per (student, question)
pair — students in input order, questions in each student's
`scores`-iteration order — followed by one `OVERALL_FEEDBACK` trailer row
per student in input order, with the stated columns, empty `Score` on the
trailer, and `Feedback` equal to `overall_feedback`. -/
theorem detailed_rows_shape (results : List EvaluationResult) :
    export_results_to_csv results
      = results.flatMap (fun r => r.scores.map (fun qs =>
          [("Student Name", Cell.s r.student.name),
           ("Roll Number", Cell.s r.student.roll_number),
           ("PDF Filename", Cell.s r.student.pdf_filename),
           ("Question ID", Cell.s qs.1),
           ("Score", Cell.n qs.2),
           ("Feedback", Cell.s ((dget r.feedback qs.1).getD ""))]))
        ++ results.map (fun r =>
          [("Student Name", Cell.s r.student.name),
           ("Roll Number", Cell.s r.student.roll_number),
           ("PDF Filename", Cell.s r.student.pdf_filename),
           ("Question ID", Cell.s "OVERALL_FEEDBACK"),
           ("Score", Cell.s ""),
           ("Feedback", Cell.s r.overall_feedback)]) :=
  csv_eq results

/-- All-or-nothing traversal of a list under an `Option`-valued reader
(used by the spec-modelled JSON reader below). -/
def mapOpt {α β : Type} (f : α → Option β) : List α → Option (List β)
  | [] => some []
  | a :: l =>
    match f a, mapOpt f l with
    | some b, some bs => some (b :: bs)
    | _, _ => none

theorem mapOpt_map_some {α β γ : Type} (g : α → β) (f : β → Option γ) (h : α → γ)
    (hf : ∀ a, f (g a) = some (h a)) :
    ∀ l : List α, mapOpt f (l.map g) = some (l.map h)
  | [] => rfl
  | a :: l => by
      show (match f (g a), mapOpt f (l.map g) with
            | some b, some bs => some (b :: bs)
            | _, _ => none) = _
      rw [hf a, mapOpt_map_some g f h hf l]
      rfl

theorem filterMap_eq_map_on {α β : Type} (f : α → Option β) (h : α → β) :
    ∀ l : List α, (∀ a ∈ l, f a = some (h a)) → l.filterMap f = l.map h
  | [], _ => rfl
  | a :: l, hl => by
      rw [List.filterMap_cons, hl a (List.mem_cons_self a l), List.map_cons,
        filterMap_eq_map_on f h l (fun b hb => hl b (List.mem_cons_of_mem a hb))]

/-- Modelled from the spec: read one evaluation object of the claimed
shape `{question_id, score, feedback}` back out of the JSON export. -/
def tupleOfEvalJson : Json → Option (String × Rat × String)
  | Json.obj [("question_id", Json.str q), ("score", Json.num s), ("feedback", Json.str f)] =>
      some (q, s, f)
  | _ => none

/-- Modelled from the spec: read one per-student object of the claimed
hierarchical shape `{student: {name, roll_number, pdf_filename},
evaluations: [...], overall_feedback}` back out of the JSON export,
yielding its `(roll_number, question_id, score, feedback)` tuples. -/
def tuplesOfStudentJson : Json → Option (List (String × String × Rat × String))
  | Json.obj [("student",
                Json.obj [("name", _), ("roll_number", Json.str roll), ("pdf_filename", _)]),
              ("evaluations", Json.arr evals),
              ("overall_feedback", _)] =>
      (mapOpt tupleOfEvalJson evals).map
        (fun ts => ts.map (fun t => (roll, t.1, t.2.1, t.2.2)))
  | _ => none

/-- Modelled from the spec: parse the whole JSON export (an array of
per-student objects) back into the flat tuple list. -/
def parseTuples : Json → Option (List (String × String × Rat × String))
  | Json.arr xs => (mapOpt tuplesOfStudentJson xs).map List.flatten
  | _ => none

/-- Normal form of the JSON export: the array of per-student objects in
input order, each with its evaluations in `scores` iteration order. -/
theorem json_eq (results : List EvaluationResult) :
    export_results_to_json results
      = (Json.arr (results.map (fun r =>
          Json.obj
            [("student",
               Json.obj
                 [("name", Json.str r.student.name),
                  ("roll_number", Json.str r.student.roll_number),
                  ("pdf_filename", Json.str r.student.pdf_filename)]),
             ("evaluations",
               Json.arr (r.scores.map (fun qs =>
                 Json.obj
                   [("question_id", Json.str qs.1),
                    ("score", Json.num qs.2),
                    ("feedback", Json.str ((dget r.feedback qs.1).getD ""))]))),
             ("overall_feedback", Json.str r.overall_feedback)])),
         2) := by
  show (Json.arr (results.foldl _ []), 2) = _
  refine Prod.ext ?_ rfl
  show Json.arr _ = Json.arr _
  congr 1
  rw [foldl_append_eq
    (fun result : EvaluationResult =>
      [Json.obj
        [("student",
           Json.obj
             [("name", Json.str result.student.name),
              ("roll_number", Json.str result.student.roll_number),
              ("pdf_filename", Json.str result.student.pdf_filename)]),
         ("evaluations",
           Json.arr (result.scores.foldl
             (fun evaluations qs =>
               evaluations ++
                 [Json.obj
                   [("question_id", Json.str qs.1),
                    ("score", Json.num qs.2),
                    ("feedback", Json.str ((dget result.feedback qs.1).getD ""))]])
             [])),
         ("overall_feedback", Json.str result.overall_feedback)]])
    results []]
  rw [flatMap_single, List.nil_append]
  apply List.map_congr_left
  intro r _
  congr 3
  rw [foldl_append_eq
    (fun qs : String × Rat =>
      [Json.obj
        [("question_id", Json.str qs.1),
         ("score", Json.num qs.2),
         ("feedback", Json.str ((dget r.feedback qs.1).getD ""))]])
    r.scores []]
  rw [flatMap_single, List.nil_append]

/-- C7: parsing the JSON export back (reading the claimed hierarchical
per-student shape) yields exactly the `(roll_number, question_id, score,
feedback)` tuples of the source collection, student by student, provided
each result's `feedback` map covers its `scores` keys (the documented
invariant); the export's indent argument is 2. -/
theorem json_export_round_trip (results : List EvaluationResult)
    (h : ∀ r ∈ results, ∀ q ∈ dkeys r.scores, q ∈ dkeys r.feedback) :
    (export_results_to_json results).2 = 2 ∧
    parseTuples (export_results_to_json results).1
      = some (results.flatMap (fun r =>
          r.scores.filterMap (fun qs =>
            (dget r.feedback qs.1).map
              (fun f => (r.student.roll_number, qs.1, qs.2, f))))) := by
  rw [json_eq]
  refine ⟨rfl, ?_⟩
  show (mapOpt tuplesOfStudentJson _).map List.flatten = _
  rw [mapOpt_map_some _ tuplesOfStudentJson
    (fun r : EvaluationResult =>
      r.scores.map (fun qs =>
        (r.student.roll_number, qs.1, qs.2, (dget r.feedback qs.1).getD "")))
    (fun r => by
      show (mapOpt tupleOfEvalJson _).map _ = _
      rw [mapOpt_map_some
        (fun qs : String × Rat =>
          Json.obj
            [("question_id", Json.str qs.1),
             ("score", Json.num qs.2),
             ("feedback", Json.str ((dget r.feedback qs.1).getD ""))])
        tupleOfEvalJson
        (fun qs : String × Rat => (qs.1, qs.2, (dget r.feedback qs.1).getD ""))
        (fun qs => rfl)]
      simp only [Option.map_some', List.map_map]
      rfl)
    results]
  simp only [Option.map_some']
  congr 1
  rw [List.flatMap_def]
  congr 1
  apply List.map_congr_left
  intro r hr
  rw [filterMap_eq_map_on _
    (fun qs : String × Rat =>
      (r.student.roll_number, qs.1, qs.2, (dget r.feedback qs.1).getD ""))]
  intro qs hqs
  have hk : qs.1 ∈ dkeys r.feedback :=
    h r hr qs.1 (List.mem_map.mpr ⟨qs, hqs, rfl⟩)
  obtain ⟨p, hp, hpk⟩ := List.mem_map.mp hk
  have hs : (r.feedback.lookup qs.1).isSome :=
    List.lookup_isSome_iff.mpr ⟨p, hp, by rw [hpk]; exact beq_self_eq_true _⟩
  obtain ⟨f, hf⟩ := Option.isSome_iff_exists.mp hs
  rw [show dget r.feedback qs.1 = r.feedback.lookup qs.1 from rfl, hf]
  rfl

/-- Witness for C7 at a concrete two-student collection. -/
theorem json_export_round_trip_witness :
    (∀ r ∈ [({ student := ⟨"A", "101", "a.pdf"⟩, scores := [("Q1", 8), ("Q2", 6)],
               feedback := [("Q1", "fa"), ("Q2", "ga")], overall_feedback := "oa" } :
               EvaluationResult),
             { student := ⟨"B", "102", "b.pdf"⟩, scores := [("Q1", 5)],
               feedback := [("Q1", "fb")], overall_feedback := "ob" }],
       ∀ q ∈ dkeys r.scores, q ∈ dkeys r.feedback) ∧
    ((export_results_to_json
        [({ student := ⟨"A", "101", "a.pdf"⟩, scores := [("Q1", 8), ("Q2", 6)],
            feedback := [("Q1", "fa"), ("Q2", "ga")], overall_feedback := "oa" } :
            EvaluationResult),
          { student := ⟨"B", "102", "b.pdf"⟩, scores := [("Q1", 5)],
            feedback := [("Q1", "fb")], overall_feedback := "ob" }]).2 = 2 ∧
     parseTuples (export_results_to_json
        [({ student := ⟨"A", "101", "a.pdf"⟩, scores := [("Q1", 8), ("Q2", 6)],
            feedback := [("Q1", "fa"), ("Q2", "ga")], overall_feedback := "oa" } :
            EvaluationResult),
          { student := ⟨"B", "102", "b.pdf"⟩, scores := [("Q1", 5)],
            feedback := [("Q1", "fb")], overall_feedback := "ob" }]).1
       = some ([({ student := ⟨"A", "101", "a.pdf"⟩, scores := [("Q1", 8), ("Q2", 6)],
                   feedback := [("Q1", "fa"), ("Q2", "ga")], overall_feedback := "oa" } :
                   EvaluationResult),
                 { student := ⟨"B", "102", "b.pdf"⟩, scores := [("Q1", 5)],
                   feedback := [("Q1", "fb")], overall_feedback := "ob" }].flatMap
           (fun r => r.scores.filterMap (fun qs =>
             (dget r.feedback qs.1).map
               (fun f => (r.student.roll_number, qs.1, qs.2, f)))))) :=
  ⟨by decide,
   json_export_round_trip
     [({ student := ⟨"A", "101", "a.pdf"⟩, scores := [("Q1", 8), ("Q2", 6)],
         feedback := [("Q1", "fa"), ("Q2", "ga")], overall_feedback := "oa" } :
         EvaluationResult),
       { student := ⟨"B", "102", "b.pdf"⟩, scores := [("Q1", 5)],
         feedback := [("Q1", "fb")], overall_feedback := "ob" }]
     (by decide)⟩

/-- C8: in both normalizer paths, a missing `score` on a kept entry
defaults to 0, a missing `feedback` defaults to the empty string, and a
missing `overall_feedback` key yields an outcome with
`overall_feedback = ""`; raw-path entries carry exactly the per-field
defaults of their originating response item. -/
theorem normalizer_defaults (root : RawRoot) (qd : QuestionMap) :
    (root.overall_feedback = none →
      (normalizeDict root qd).overall_feedback = "" ∧
      (normalizeRaw root qd).overall_feedback = "") ∧
    (∀ (i : Nat) (e : RawEval),
      (root.question_evaluations.getD []).get? i = some e →
      ∃ entry, (normalizeDict root qd).results.get? i = some entry ∧
        (e.score = none → entry.score = 0) ∧
        (e.feedback = none → entry.feedback = "")) ∧
    (∀ entry ∈ (normalizeRaw root qd).results,
      ∃ e, e ∈ root.question_evaluations.getD [] ∧
        entry.question_id = e.question_id.getD "" ∧
        entry.score = e.score.getD 0 ∧
        entry.feedback = e.feedback.getD "") := by
  refine ⟨?_, ?_, ?_⟩
  · intro hov
    exact ⟨by simp [normalizeDict, hov], by simp [normalizeRaw, hov]⟩
  · intro i e he
    refine ⟨{ question_id := e.question_id.getD ""
              question := backfillQuestion qd (e.question_id.getD "")
              score := e.score.getD 0
              feedback := e.feedback.getD "" }, ?_, ?_, ?_⟩
    · show ((root.question_evaluations.getD []).map _).get? i = _
      rw [List.get?_eq_getElem?] at he ⊢
      rw [List.getElem?_map, he]
      rfl
    · intro hs; rw [hs]; rfl
    · intro hf; rw [hf]; rfl
  · intro entry hmem
    have hmem' : entry ∈ (root.question_evaluations.getD []).filterMap
        (fun e =>
          let qid := e.question_id.getD ""
          if qid.isEmpty then none
          else
            match dget qd qid with
            | some q =>
                some { question_id := qid
                       question := q.question
                       score := e.score.getD 0
                       feedback := e.feedback.getD "" }
            | none => none) := hmem
    obtain ⟨e, he, hfe⟩ := List.mem_filterMap.mp hmem'
    refine ⟨e, he, ?_⟩
    by_cases hq : (e.question_id.getD "").isEmpty
    · simp only [hq, if_pos rfl] at hfe
      exact absurd hfe (by simp)
    · rw [if_neg (by simp [hq])] at hfe
      cases hg : dget qd (e.question_id.getD "") with
      | none => rw [hg] at hfe; exact absurd hfe (by simp)
      | some q =>
          rw [hg] at hfe
          have hentry := (Option.some.injEq _ _).mp hfe
          rw [← hentry]
          exact ⟨rfl, rfl, rfl⟩

/-- Witness for C8 at a raw response with a missing score, feedback and
overall_feedback. -/
theorem normalizer_defaults_witness :
    (⟨some [⟨some "Q1", none, none⟩], none⟩ : RawRoot).overall_feedback = none ∧
    ((normalizeDict ⟨some [⟨some "Q1", none, none⟩], none⟩
        [("Q1", ⟨"q", "a"⟩)]).overall_feedback = "" ∧
     (normalizeRaw ⟨some [⟨some "Q1", none, none⟩], none⟩
        [("Q1", ⟨"q", "a"⟩)]).overall_feedback = "") ∧
    ((⟨some [⟨some "Q1", none, none⟩], none⟩ :
        RawRoot).question_evaluations.getD []).get? 0
      = some ⟨some "Q1", none, none⟩ ∧
    (∃ entry,
      (normalizeDict ⟨some [⟨some "Q1", none, none⟩], none⟩
          [("Q1", ⟨"q", "a"⟩)]).results.get? 0 = some entry ∧
      ((⟨some "Q1", none, none⟩ : RawEval).score = none → entry.score = 0) ∧
      ((⟨some "Q1", none, none⟩ : RawEval).feedback = none → entry.feedback = "")) ∧
    (⟨"Q1", "q", 0, ""⟩ : ResultEntry) ∈
      (normalizeRaw ⟨some [⟨some "Q1", none, none⟩], none⟩
        [("Q1", ⟨"q", "a"⟩)]).results ∧
    (∃ e, e ∈ (⟨some [⟨some "Q1", none, none⟩], none⟩ :
          RawRoot).question_evaluations.getD [] ∧
      (⟨"Q1", "q", 0, ""⟩ : ResultEntry).question_id = e.question_id.getD "" ∧
      (⟨"Q1", "q", 0, ""⟩ : ResultEntry).score = e.score.getD 0 ∧
      (⟨"Q1", "q", 0, ""⟩ : ResultEntry).feedback = e.feedback.getD "") :=
  ⟨rfl,
   (normalizer_defaults ⟨some [⟨some "Q1", none, none⟩], none⟩
      [("Q1", ⟨"q", "a"⟩)]).1 rfl,
   by decide,
   (normalizer_defaults ⟨some [⟨some "Q1", none, none⟩], none⟩
      [("Q1", ⟨"q", "a"⟩)]).2.1 0 ⟨some "Q1", none, none⟩ (by decide),
   by decide,
   (normalizer_defaults ⟨some [⟨some "Q1", none, none⟩], none⟩
      [("Q1", ⟨"q", "a"⟩)]).2.2 ⟨"Q1", "q", 0, ""⟩ (by decide)⟩

theorem flatMap_congr {α β : Type} (f g : α → List β) :
    ∀ l : List α, (∀ a ∈ l, f a = g a) → l.flatMap f = l.flatMap g
  | [], _ => rfl
  | a :: l, h => by
      rw [List.flatMap_cons, List.flatMap_cons, h a (List.mem_cons_self a l),
        flatMap_congr f g l (fun b hb => h b (List.mem_cons_of_mem a hb))]

/-- C10 counterexample: student B has no score for Q1 but a feedback
entry for it; because student A's scores put Q1 in the pivot union, B's
feedback value "fb" (whose question_id is not a key of B's own scores
mapping) does appear in the pivot export. -/
theorem pivot_shows_foreign_feedback :
    export_results_to_pivot_table
        [{ student := ⟨"A", "101", "a.pdf"⟩, scores := [("Q1", 5)],
           feedback := [("Q1", "fa")], overall_feedback := "oa" },
         { student := ⟨"B", "102", "b.pdf"⟩, scores := [],
           feedback := [("Q1", "fb")], overall_feedback := "ob" }]
      = [[("Student Name", Cell.s "A"), ("Roll Number", Cell.s "101"),
          ("Overall Feedback", Cell.s "oa"),
          ("Score_Q1", Cell.n 5), ("Feedback_Q1", Cell.s "fa")],
         [("Student Name", Cell.s "B"), ("Roll Number", Cell.s "102"),
          ("Overall Feedback", Cell.s "ob"),
          ("Score_Q1", Cell.s ""), ("Feedback_Q1", Cell.s "fb")]] ∧
    "Q1" ∉ dkeys ({ student := ⟨"B", "102", "b.pdf"⟩, scores := [],
                    feedback := [("Q1", "fb")], overall_feedback := "ob" } :
                    EvaluationResult).scores := by
  refine ⟨by decide, by decide⟩

/-- C10 (amended): the detailed and JSON exports are driven solely by
each result's own `scores` mapping — they are unchanged when a result's
feedback is altered anywhere outside its own scores keys — and the pivot
column union is built from scores keys alone; but the pivot consults a
result's feedback at every union key, so a feedback entry whose id lies
in the union while absent from that result's own scores does surface
(see the counterexample), and pivot invariance holds only for feedback
changes outside the union. -/
theorem exports_depend_only_on_scores_keyed_feedback
    (r r' : EvaluationResult) (pre post : List EvaluationResult)
    (hstu : r'.student = r.student) (hsc : r'.scores = r.scores)
    (hov : r'.overall_feedback = r.overall_feedback)
    (hfb_own : ∀ q ∈ dkeys r.scores, dget r'.feedback q = dget r.feedback q) :
    (∀ q, q ∈ pivotIds (pre ++ r :: post) ↔
      ∃ s ∈ pre ++ r :: post, q ∈ dkeys s.scores) ∧
    pivotIds (pre ++ r' :: post) = pivotIds (pre ++ r :: post) ∧
    export_results_to_csv (pre ++ r' :: post)
      = export_results_to_csv (pre ++ r :: post) ∧
    export_results_to_json (pre ++ r' :: post)
      = export_results_to_json (pre ++ r :: post) ∧
    ((∀ q ∈ pivotIds (pre ++ r :: post), dget r'.feedback q = dget r.feedback q) →
      export_results_to_pivot_table (pre ++ r' :: post)
        = export_results_to_pivot_table (pre ++ r :: post)) := by
  have hids : pivotIds (pre ++ r' :: post) = pivotIds (pre ++ r :: post) := by
    unfold pivotIds
    congr 1
    rw [List.foldl_append, List.foldl_append, List.foldl_cons, List.foldl_cons, hsc]
  have hquestion_rows :
      List.map (fun qs : String × Rat =>
        [("Student Name", Cell.s r'.student.name),
         ("Roll Number", Cell.s r'.student.roll_number),
         ("PDF Filename", Cell.s r'.student.pdf_filename),
         ("Question ID", Cell.s qs.1),
         ("Score", Cell.n qs.2),
         ("Feedback", Cell.s ((dget r'.feedback qs.1).getD ""))]) r'.scores
      = List.map (fun qs : String × Rat =>
        [("Student Name", Cell.s r.student.name),
         ("Roll Number", Cell.s r.student.roll_number),
         ("PDF Filename", Cell.s r.student.pdf_filename),
         ("Question ID", Cell.s qs.1),
         ("Score", Cell.n qs.2),
         ("Feedback", Cell.s ((dget r.feedback qs.1).getD ""))]) r.scores := by
    rw [hstu, hsc]
    apply List.map_congr_left
    intro qs hqs
    rw [hfb_own qs.1 (List.mem_map.mpr ⟨qs, hqs, rfl⟩)]
  have hevals :
      List.map (fun qs : String × Rat =>
        Json.obj
          [("question_id", Json.str qs.1), ("score", Json.num qs.2),
           ("feedback", Json.str ((dget r'.feedback qs.1).getD ""))]) r.scores
      = List.map (fun qs : String × Rat =>
        Json.obj
          [("question_id", Json.str qs.1), ("score", Json.num qs.2),
           ("feedback", Json.str ((dget r.feedback qs.1).getD ""))]) r.scores := by
    apply List.map_congr_left
    intro qs hqs
    rw [hfb_own qs.1 (List.mem_map.mpr ⟨qs, hqs, rfl⟩)]
  refine ⟨fun q => mem_pivotIds q (pre ++ r :: post), hids, ?_, ?_, ?_⟩
  · rw [csv_eq, csv_eq]
    congr 1
    · rw [List.flatMap_append, List.flatMap_append, List.flatMap_cons,
        List.flatMap_cons, hquestion_rows]
    · rw [List.map_append, List.map_append, List.map_cons, List.map_cons,
        hstu, hov]
  · rw [json_eq, json_eq]
    refine Prod.ext ?_ rfl
    show Json.arr _ = Json.arr _
    congr 1
    rw [List.map_append, List.map_append, List.map_cons, List.map_cons]
    congr 2
    rw [hstu, hov, hsc, hevals]
  · intro hfb_union
    rw [pivot_eq, pivot_eq, hids]
    rw [List.map_append, List.map_append, List.map_cons, List.map_cons]
    congr 2
    rw [hstu, hov]
    congr 1
    apply flatMap_congr
    intro q hq
    rw [hsc, hfb_union q hq]

/-- Witness for C10 (amended), at the counterexample's own scenario:
student B gains a feedback entry for Q1 — a key inside the pivot union
(student A scores Q1) but outside B's own (empty) scores — and the
detailed and JSON exports are provably unchanged, so that entry appears
in neither; only the pivot is exempt. -/
theorem exports_depend_only_on_scores_keyed_feedback_witness :
    (∀ q ∈ dkeys ({ student := ⟨"B", "102", "b.pdf"⟩, scores := [],
                    feedback := [], overall_feedback := "ob" } :
                    EvaluationResult).scores,
      dget ({ student := ⟨"B", "102", "b.pdf"⟩, scores := [],
              feedback := [("Q1", "fb")], overall_feedback := "ob" } :
              EvaluationResult).feedback q
        = dget ({ student := ⟨"B", "102", "b.pdf"⟩, scores := [],
                  feedback := [], overall_feedback := "ob" } :
                  EvaluationResult).feedback q) ∧
    "Q1" ∈ pivotIds
      [({ student := ⟨"A", "101", "a.pdf"⟩, scores := [("Q1", 5)],
          feedback := [("Q1", "fa")], overall_feedback := "oa" } :
          EvaluationResult),
       { student := ⟨"B", "102", "b.pdf"⟩, scores := [],
         feedback := [], overall_feedback := "ob" }] ∧
    (export_results_to_csv
        [({ student := ⟨"A", "101", "a.pdf"⟩, scores := [("Q1", 5)],
            feedback := [("Q1", "fa")], overall_feedback := "oa" } :
            EvaluationResult),
          { student := ⟨"B", "102", "b.pdf"⟩, scores := [],
            feedback := [("Q1", "fb")], overall_feedback := "ob" }]
      = export_results_to_csv
        [({ student := ⟨"A", "101", "a.pdf"⟩, scores := [("Q1", 5)],
            feedback := [("Q1", "fa")], overall_feedback := "oa" } :
            EvaluationResult),
          { student := ⟨"B", "102", "b.pdf"⟩, scores := [],
            feedback := [], overall_feedback := "ob" }] ∧
     export_results_to_json
        [({ student := ⟨"A", "101", "a.pdf"⟩, scores := [("Q1", 5)],
            feedback := [("Q1", "fa")], overall_feedback := "oa" } :
            EvaluationResult),
          { student := ⟨"B", "102", "b.pdf"⟩, scores := [],
            feedback := [("Q1", "fb")], overall_feedback := "ob" }]
      = export_results_to_json
        [({ student := ⟨"A", "101", "a.pdf"⟩, scores := [("Q1", 5)],
            feedback := [("Q1", "fa")], overall_feedback := "oa" } :
            EvaluationResult),
          { student := ⟨"B", "102", "b.pdf"⟩, scores := [],
            feedback := [], overall_feedback := "ob" }]) :=
  ⟨by decide, by decide,
   (exports_depend_only_on_scores_keyed_feedback
      { student := ⟨"B", "102", "b.pdf"⟩, scores := [],
        feedback := [], overall_feedback := "ob" }
      { student := ⟨"B", "102", "b.pdf"⟩, scores := [],
        feedback := [("Q1", "fb")], overall_feedback := "ob" }
      [{ student := ⟨"A", "101", "a.pdf"⟩, scores := [("Q1", 5)],
         feedback := [("Q1", "fa")], overall_feedback := "oa" }]
      [] rfl rfl rfl (by decide)).2.2.1,
   (exports_depend_only_on_scores_keyed_feedback
      { student := ⟨"B", "102", "b.pdf"⟩, scores := [],
        feedback := [], overall_feedback := "ob" }
      { student := ⟨"B", "102", "b.pdf"⟩, scores := [],
        feedback := [("Q1", "fb")], overall_feedback := "ob" }
      [{ student := ⟨"A", "101", "a.pdf"⟩, scores := [("Q1", 5)],
         feedback := [("Q1", "fa")], overall_feedback := "oa" }]
      [] rfl rfl rfl (by decide)).2.2.2.1⟩

end EvalEase
